import Mathlib

/-!
Verification of the QML tutorial scripts (`tutorial_gbs.py` and
`tutorial_kernel_based_training.py`) against their natural-language
specification.

The development has two parts of definitions, followed by the theorems:

* `KernelTraining`: shallow embeddings of the pure functions of
  `tutorial_kernel_based_training.py` (`circuit_evals_kernel`,
  `hinge_loss`, `quantum_model_predict`) and a state-vector semantics of
  the quantum-kernel circuit `kernel` (angle embedding, its inverse, and
  the expectation of the tensor of PauliZ observables).
* `Scripts`: a statement-level model of the two tutorial scripts: every
  top-level statement is recorded with its source line, its role in the
  pipeline (configure device / define circuit / execute / post-process /
  print-plot / setup), its output channels, exception-handling and
  concurrency flags, and its access to the `probs` tensor of the GBS
  script.
-/

namespace KernelTraining

/-- Embedding of `circuit_evals_kernel(n_data, split)`
(`tutorial_kernel_based_training.py`, lines 281-292).  Python integers are
`ℤ`; `int(np.ceil(0.75 * n_data))` is the exact ceiling `⌈(3/4)·n⌉`
(the float product `0.75 * n_data` is exact for machine-size inputs).
The `split` argument is received, as in the source, and never used. -/
def circuit_evals_kernel (n_data : ℤ) (split : ℚ) : ℤ :=
  let M : ℤ := ⌈(0.75 : ℚ) * (n_data : ℚ)⌉
  let Mpred : ℤ := n_data - M
  let n_training : ℤ := M * M
  let n_prediction : ℤ := M * Mpred
  n_training + n_prediction

/-- `torch.nn.functional.relu`, elementwise on scalars: `relu x = max x 0`. -/
def relu (x : ℝ) : ℝ := max x 0

/-- Embedding of `hinge_loss(predictions, targets)`
(`tutorial_kernel_based_training.py`, lines 341-350).  One-dimensional
torch tensors are lists of reals; `torch.ones_like(targets)` is a list of
ones of the shape of `targets`, `-` and `*` are elementwise, and `relu`
is mapped over the result. -/
def hinge_loss (predictions targets : List ℝ) : List ℝ :=
  let all_ones := targets.map (fun _ => (1 : ℝ))
  let diffs := List.zipWith (· - ·) all_ones (List.zipWith (· * ·) predictions targets)
  diffs.map relu

/-- Embedding of `quantum_model_plus_bias(x, params, bias)`
(`tutorial_kernel_based_training.py`, lines 334-338).  The qnode
`quantum_model` is an opaque library-evaluated function and is abstracted
as a parameter; its scalar outputs are rationals. -/
def quantum_model_plus_bias {α β : Type} (quantum_model : α → β → ℚ)
    (x : α) (params : β) (bias : ℚ) : ℚ :=
  quantum_model x params + bias

/-- Embedding of `quantum_model_predict(X_pred, trained_params, trained_bias)`
(`tutorial_kernel_based_training.py`, lines 403-419).  The source loops
over `X_pred`, thresholds each raw output at `pred > 0`, and appends the
label `1` or `-1`; the accumulating loop is the map below. -/
def quantum_model_predict {α β : Type} (quantum_model : α → β → ℚ)
    (X_pred : List α) (trained_params : β) (trained_bias : ℚ) : List ℤ :=
  X_pred.map (fun x =>
    let pred := quantum_model_plus_bias quantum_model x trained_params trained_bias
    if pred > 0 then (1 : ℤ) else -1)

/-! State-vector semantics of the quantum-kernel circuit
(`tutorial_kernel_based_training.py`, lines 204-215).  The device
`default.qubit` with `n` wires simulates an `n`-qubit state vector; basis
states are functions `Fin n → Bool` and a state assigns a complex
amplitude to each basis state.  `AngleEmbedding(x, wires=range(n))` with
its default rotation applies the single-qubit rotation `RX(x i)` to wire
`i`, for `i = 0, …, n-1` in order; `qml.inv` applies the inverted
operations in reverse order, i.e. `RX(-x i)` for `i = n-1, …, 0`.  The
observable `Tensor(PauliZ 0, …, PauliZ (n-1))` is diagonal in the
computational basis with eigenvalue `∏ i, (-1)^(b i)` on basis state `b`,
so its expectation is that eigenvalue averaged over `‖amplitude‖²`. -/

/-- An `n`-qubit state vector: a complex amplitude per computational basis
state. -/
def QState (n : ℕ) : Type := (Fin n → Bool) → ℂ

/-- Flip the bit of a basis state at wire `w`. -/
def flipAt {n : ℕ} (w : Fin n) (b : Fin n → Bool) : Fin n → Bool :=
  Function.update b w (!(b w))

/-- Apply the rotation gate `RX θ = cos(θ/2)·I − i sin(θ/2)·X` to wire `w`. -/
noncomputable def applyRX {n : ℕ} (θ : ℝ) (w : Fin n) (ψ : QState n) : QState n :=
  fun b =>
    (Real.cos (θ / 2) : ℂ) * ψ b -
      Complex.I * (Real.sin (θ / 2) : ℂ) * ψ (flipAt w b)

/-- The initial state of the device: all wires in `|0⟩`. -/
def vacuum (n : ℕ) : QState n :=
  fun b => if b = fun _ => false then 1 else 0

/-- `AngleEmbedding(x, wires=range(n))`: the rotation `RX (x i)` on each
wire `i`, applied in increasing wire order. -/
noncomputable def AngleEmbedding {n : ℕ} (x : Fin n → ℝ) (ψ : QState n) : QState n :=
  (List.finRange n).foldl (fun φ i => applyRX (x i) i φ) ψ

/-- `qml.inv(AngleEmbedding(x, wires=range(n)))`: the inverse rotations
`RX (-(x i))`, applied in decreasing wire order. -/
noncomputable def AngleEmbeddingInv {n : ℕ} (x : Fin n → ℝ) (ψ : QState n) : QState n :=
  (List.finRange n).reverse.foldl (fun φ i => applyRX (-(x i)) i φ) ψ

/-- Eigenvalue of `Tensor(PauliZ 0, …, PauliZ (n-1))` on basis state `b`. -/
def pauliZProduct {n : ℕ} (b : Fin n → Bool) : ℝ :=
  ∏ i, (if b i then (-1 : ℝ) else 1)

/-- Expectation value of the tensor of PauliZ observables in state `ψ`. -/
noncomputable def expvalZ {n : ℕ} (ψ : QState n) : ℝ :=
  ∑ b : Fin n → Bool, pauliZProduct b * Complex.normSq (ψ b)

/-- Embedding of the qnode `kernel(x1, x2)`
(`tutorial_kernel_based_training.py`, lines 208-215): starting from the
vacuum, apply `AngleEmbedding(x1)`, then the inverse of
`AngleEmbedding(x2)`, and return the expectation of the tensor of PauliZ
observables. -/
noncomputable def kernel {n : ℕ} (x1 x2 : Fin n → ℝ) : ℝ :=
  expvalZ (AngleEmbeddingInv x2 (AngleEmbedding x1 (vacuum n)))

end KernelTraining

namespace Scripts

/-- The role of a top-level statement in the pipeline the specification
describes: (a) configure a simulated quantum device, (b) define a circuit,
(c) execute it, (d) post-process results with numerical routines,
(e) print or plot results.  `setup` covers statements outside that
taxonomy: imports, random seeding, constants, data preparation and
definitions of plain classical helper functions. -/
inductive StepKind where
  | setup
  | configDevice
  | defineCircuit
  | execute
  | postProcess
  | printPlot
deriving DecidableEq

/-- Externally visible output channel of a statement. -/
inductive OutputChannel where
  | console
  | plot
  | fileWrite
deriving DecidableEq

/-- How a statement touches the `probs` tensor of the GBS script. -/
inductive ProbsAccess where
  | create
  | read
  | write
deriving DecidableEq

/-- A top-level statement of a tutorial script: its source line, pipeline
role, exception behaviour, output channels, concurrency usage, and its
access to `probs` (if any). -/
structure Stmt where
  line : ℕ
  kind : StepKind
  raisesException : Bool
  catchesException : Bool
  definesErrorType : Bool
  outputsTo : List OutputChannel
  usesConcurrency : Bool
  probsAccess : Option ProbsAccess
deriving DecidableEq

/-- A statement that raises no exception, catches none, defines no error
type, uses no concurrency primitive, and does not touch `probs` — which,
per inspection of the sources, is every statement of both scripts. -/
def mk (line : ℕ) (kind : StepKind) (outs : List OutputChannel)
    (pa : Option ProbsAccess) : Stmt :=
  ⟨line, kind, false, false, false, outs, false, pa⟩

/-- The top-level statements of `tutorial_gbs.py`, in source order. -/
def gbs_script : List Stmt :=
  [ mk 183 .setup [] none              -- import numpy as np
  , mk 186 .setup [] none              -- np.random.seed(42)
  , mk 189 .setup [] none              -- import pennylane as qml
  , mk 195 .setup [] none              -- from scipy.stats import unitary_group
  , mk 198 .setup [] none              -- U = unitary_group.rvs(4)
  , mk 199 .printPlot [.console] none  -- print(U)
  , mk 208 .setup [] none              -- n_wires = 4
  , mk 209 .setup [] none              -- cutoff = 10
  , mk 211 .configDevice [] none       -- dev = qml.device("strawberryfields.gaussian", ...)
  , mk 213 .defineCircuit [] none      -- @qml.qnode(dev) def gbs_circuit(): ...
  , mk 245 .execute [] (some .create)  -- probs = gbs_circuit().reshape([cutoff] * n_wires)
  , mk 246 .printPlot [.console] (some .read)  -- print(probs.shape)
  , mk 258 .setup [] none              -- measure_states = [...]
  , mk 262 .printPlot [.console] (some .read)  -- for i in measure_states: print(... probs[i])
  , mk 304 .setup [] none              -- from thewalrus import hafnian as haf
  , mk 310 .postProcess [] none        -- B = (np.dot(U, U.T) * np.tanh(1))
  , mk 317 .printPlot [.console] none  -- print(B[:, [0, 1]][[0, 1]])
  , mk 330 .printPlot [.console] none  -- print(1 / np.cosh(1) ** 4)
  , mk 331 .printPlot [.console] (some .read)  -- print(probs[0, 0, 0, 0])
  , mk 336 .postProcess [] none        -- B = (...)[: , [0, 1]][[0, 1]]
  , mk 337 .printPlot [.console] none  -- print(np.abs(haf(B)) ** 2 / np.cosh(1) ** 4)
  , mk 338 .printPlot [.console] (some .read)  -- print(probs[1, 1, 0, 0])
  , mk 343 .postProcess [] none        -- B = (...)[: , [1, 3]][[1, 3]]
  , mk 344 .printPlot [.console] none  -- print(np.abs(haf(B)) ** 2 / np.cosh(1) ** 4)
  , mk 345 .printPlot [.console] (some .read)  -- print(probs[0, 1, 0, 1])
  , mk 352 .postProcess [] none        -- B = (np.dot(U, U.T) * np.tanh(1))
  , mk 353 .printPlot [.console] none  -- print(np.abs(haf(B)) ** 2 / np.cosh(1) ** 4)
  , mk 354 .printPlot [.console] (some .read)  -- print(probs[1, 1, 1, 1])
  , mk 362 .postProcess [] none        -- B = (...)[: , [0, 0]][[0, 0]]
  , mk 363 .printPlot [.console] none  -- print(np.abs(haf(B)) ** 2 / (2 * np.cosh(1) ** 4))
  , mk 364 .printPlot [.console] (some .read)  -- print(probs[2, 0, 0, 0])
  ]

/-- The top-level statements of `tutorial_kernel_based_training.py`, in
source order. -/
def kernel_script : List Stmt :=
  [ mk 127 .setup [] none              -- import numpy as np
  , mk 128 .setup [] none              -- import torch
  , mk 129 .setup [] none              -- from torch.nn.functional import relu
  , mk 131 .setup [] none              -- from sklearn.svm import SVC
  , mk 132 .setup [] none              -- from sklearn.datasets import make_blobs
  , mk 133 .setup [] none              -- from sklearn.preprocessing import StandardScaler
  , mk 134 .setup [] none              -- from sklearn.model_selection import train_test_split
  , mk 135 .setup [] none              -- from sklearn.metrics import accuracy_score
  , mk 137 .setup [] none              -- import pennylane as qml
  , mk 138 .setup [] none              -- from pennylane.templates import ...
  , mk 139 .setup [] none              -- from pennylane.operation import Tensor
  , mk 141 .setup [] none              -- import matplotlib.pyplot as plt
  , mk 143 .setup [] none              -- np.random.seed(42)
  , mk 150 .setup [] none              -- X, y = make_blobs(...)
  , mk 153 .setup [] none              -- scaler = StandardScaler().fit(X)
  , mk 154 .setup [] none              -- X_scaled = scaler.transform(X)
  , mk 158 .setup [] none              -- y_scaled = 2 * (y - 0.5)
  , mk 160 .setup [] none              -- X_train, X_test, y_train, y_test = train_test_split(...)
  , mk 169 .setup [] none              -- n_qubits = len(X_train[0])
  , mk 204 .configDevice [] none       -- dev_kernel = qml.device("default.qubit", ...)
  , mk 206 .setup [] none              -- observables = [qml.PauliZ(i) for i in range(n_qubits)]
  , mk 208 .defineCircuit [] none      -- @qml.qnode(dev_kernel) def kernel(x1, x2): ...
  , mk 223 .execute [] none            -- kernel(X_train[0], X_train[0])
  , mk 233 .setup [] none              -- def kernel_matrix(A, B): ...
  , mk 246 .execute [] none            -- svm = SVC(kernel=kernel_matrix).fit(X_train, y_train)
  , mk 253 .execute [] none            -- predictions = svm.predict(X_test)
  , mk 254 .postProcess [] none        -- accuracy_score(predictions, y_test)
  , mk 261 .postProcess [] none        -- dev_kernel.num_executions
  , mk 281 .setup [] none              -- def circuit_evals_kernel(n_data, split): ...
  , mk 295 .postProcess [] none        -- circuit_evals_kernel(n_data=..., split=...)
  , mk 318 .configDevice [] none       -- dev_var = qml.device("default.qubit", ...)
  , mk 321 .defineCircuit [] none      -- @qml.qnode(dev_var, ...) def quantum_model(x, params): ...
  , mk 334 .setup [] none              -- def quantum_model_plus_bias(x, params, bias): ...
  , mk 341 .setup [] none              -- def hinge_loss(predictions, targets): ...
  , mk 361 .setup [] none              -- def quantum_model_train(n_layers, steps, batch_size): ...
  , mk 403 .setup [] none              -- def quantum_model_predict(X_pred, ...): ...
  , mk 427 .setup [] none              -- n_layers = 1
  , mk 428 .setup [] none              -- batch_size = 20
  , mk 429 .setup [] none              -- steps = 80
  , mk 430 .execute [.console] none    -- trained_params, trained_bias, loss_history = quantum_model_train(...)
  , mk 432 .execute [] none            -- pred_test = quantum_model_predict(...)
  , mk 433 .printPlot [.console] none  -- print("accuracy on test set:", ...)
  , mk 435 .printPlot [.plot] none     -- plt.plot(loss_history)
  , mk 436 .printPlot [.plot] none     -- plt.ylim((0, 1))
  , mk 437 .printPlot [.plot] none     -- plt.show()
  , mk 444 .postProcess [] none        -- dev_var.num_executions
  , mk 459 .setup [] none              -- def circuit_evals_variational(...): ...
  , mk 473 .postProcess [] none        -- circuit_evals_variational(...)
  , mk 489 .setup [] none              -- def model_evals_nn(...): ...
  , mk 514 .postProcess [] none        -- model_evals_nn(...)
  , mk 558 .setup [] none              -- variational_training1 = []
  , mk 559 .setup [] none              -- variational_training2 = []
  , mk 560 .setup [] none              -- kernelbased_training = []
  , mk 561 .setup [] none              -- nn_training = []
  , mk 562 .setup [] none              -- x_axis = range(0, 2000, 100)
  , mk 563 .postProcess [] none        -- for M in x_axis: ... append counts
  , mk 584 .printPlot [.plot] none     -- plt.plot(x_axis, nn_training, ...)
  , mk 585 .printPlot [.plot] none     -- plt.plot(x_axis, variational_training1, ...)
  , mk 586 .printPlot [.plot] none     -- plt.plot(x_axis, variational_training2, ...)
  , mk 587 .printPlot [.plot] none     -- plt.plot(x_axis, kernelbased_training, ...)
  , mk 588 .printPlot [.plot] none     -- plt.xlabel(...)
  , mk 589 .printPlot [.plot] none     -- plt.ylabel(...)
  , mk 590 .printPlot [.plot] none     -- plt.legend()
  , mk 591 .printPlot [.plot] none     -- plt.tight_layout()
  , mk 592 .printPlot [.plot] none     -- plt.show()
  ]

/-- The phase number of a pipeline step, `none` for statements outside the
specification's five-step taxonomy. -/
def phaseOf : StepKind → Option ℕ
  | .setup => none
  | .configDevice => some 0
  | .defineCircuit => some 1
  | .execute => some 2
  | .postProcess => some 3
  | .printPlot => some 4

/-- The phases of a script's pipeline statements, in source order. -/
def phases (t : List Stmt) : List ℕ :=
  t.filterMap (fun s => phaseOf s.kind)

/-- A script is linearly ordered when its pipeline statements appear in
non-decreasing phase order (a), (b), (c), (d), (e). -/
def linearOrder (t : List Stmt) : Prop :=
  (phases t).Pairwise (· ≤ ·)

instance (t : List Stmt) : Decidable (linearOrder t) :=
  List.instDecidablePairwise (phases t)

/-- Index of the first statement of a given kind. -/
def firstIdx (k : StepKind) (t : List Stmt) : ℕ :=
  t.findIdx (fun s => decide (s.kind = k))

/-- The probs-tensor accesses of a script, in source order. -/
def probsAccesses (t : List Stmt) : List ProbsAccess :=
  t.filterMap (fun s => s.probsAccess)

/-- The Python modules imported by `tutorial_gbs.py` and
`tutorial_kernel_based_training.py`, plus the standard concurrency
modules, none of which is imported. -/
inductive PyModule where
  | numpy
  | pennylane
  | pennylaneTemplates
  | pennylaneOperation
  | scipyStats
  | thewalrus
  | torch
  | torchNnFunctional
  | sklearnSvm
  | sklearnDatasets
  | sklearnPreprocessing
  | sklearnModelSelection
  | sklearnMetrics
  | matplotlibPyplot
  | threading
  | multiprocessing
  | asyncioLib
  | concurrentFutures
deriving DecidableEq

/-- Whether a module provides threads, processes, or asynchronous calls. -/
def isConcurrencyModule : PyModule → Bool
  | .threading => true
  | .multiprocessing => true
  | .asyncioLib => true
  | .concurrentFutures => true
  | _ => false

/-- Imports of `tutorial_gbs.py` (lines 183, 189, 195, 304). -/
def gbs_imports : List PyModule :=
  [.numpy, .pennylane, .scipyStats, .thewalrus]

/-- Imports of `tutorial_kernel_based_training.py` (lines 127-141). -/
def kernel_imports : List PyModule :=
  [.numpy, .torch, .torchNnFunctional, .sklearnSvm, .sklearnDatasets,
   .sklearnPreprocessing, .sklearnModelSelection, .sklearnMetrics,
   .pennylane, .pennylaneTemplates, .pennylaneOperation, .matplotlibPyplot]

end Scripts

namespace KernelTraining

theorem flipAt_flipAt {n : ℕ} (w : Fin n) (b : Fin n → Bool) :
    flipAt w (flipAt w b) = b := by
  funext j
  by_cases h : j = w
  · subst h
    simp [flipAt]
  · simp [flipAt, Function.update_noteq h]

theorem applyRX_neg_applyRX {n : ℕ} (θ : ℝ) (w : Fin n) (ψ : QState n) :
    applyRX (-θ) w (applyRX θ w ψ) = ψ := by
  funext b
  have hsc : (Real.sin (θ / 2) : ℂ) ^ 2 + (Real.cos (θ / 2) : ℂ) ^ 2 = 1 := by
    exact_mod_cast congrArg (Complex.ofReal ·) (Real.sin_sq_add_cos_sq (θ / 2))
  simp only [applyRX, flipAt_flipAt, neg_div, Real.cos_neg, Real.sin_neg,
    Complex.ofReal_neg]
  linear_combination (-(ψ b) * (Real.sin (θ / 2) : ℂ) ^ 2) * Complex.I_sq +
    (ψ b) * hsc

theorem foldl_applyRX_inv {n : ℕ} (x : Fin n → ℝ) (l : List (Fin n)) (ψ : QState n) :
    l.reverse.foldl (fun φ i => applyRX (-(x i)) i φ)
      (l.foldl (fun φ i => applyRX (x i) i φ) ψ) = ψ := by
  induction l generalizing ψ with
  | nil => rfl
  | cons a t ih =>
    simp only [List.foldl_cons, List.reverse_cons, List.foldl_append,
      List.foldl_cons, List.foldl_nil]
    rw [ih (applyRX (x a) a ψ), applyRX_neg_applyRX]

theorem AngleEmbeddingInv_AngleEmbedding {n : ℕ} (x : Fin n → ℝ) (ψ : QState n) :
    AngleEmbeddingInv x (AngleEmbedding x ψ) = ψ :=
  foldl_applyRX_inv x (List.finRange n) ψ

theorem expvalZ_vacuum (n : ℕ) : expvalZ (vacuum n) = 1 := by
  unfold expvalZ
  rw [Finset.sum_eq_single (fun _ => false)]
  · simp [vacuum, pauliZProduct]
  · intro b _ hb
    simp [vacuum, hb]
  · intro h
    exact absurd (Finset.mem_univ _) h

theorem hinge_loss_eq_zipWith (p t : List ℝ) :
    hinge_loss p t = List.zipWith (fun a b => relu (1 - a * b)) p t := by
  induction p generalizing t with
  | nil => cases t <;> rfl
  | cons a p' ih =>
    cases t with
    | nil => rfl
    | cons b t' =>
      show relu (1 - a * b) :: hinge_loss p' t' = _
      rw [List.zipWith_cons_cons, ih t']

/-- C2: for every input vector `x` of length `n`, the quantum kernel
evaluated on the pair `(x, x)` returns exactly `1`: the angle embedding of
`x` followed by its inverse leaves the all-zeros state unchanged, so the
expectation of the tensor of PauliZ observables on the resulting state is
exactly `1`. -/
theorem kernel_self_eq_one {n : ℕ} (x : Fin n → ℝ) :
    kernel x x = 1 ∧
      AngleEmbeddingInv x (AngleEmbedding x (vacuum n)) = vacuum n := by
  have h := AngleEmbeddingInv_AngleEmbedding x (vacuum n)
  constructor
  · unfold kernel
    rw [h, expvalZ_vacuum]
  · exact h

/-- C3: for every integer `n_data` and any values of the `split` argument,
`circuit_evals_kernel(n_data, split)` returns `M*M + M*(n_data - M)` with
`M = ⌈0.75 * n_data⌉`; in particular the result does not depend on
`split` at all. -/
theorem circuit_evals_kernel_spec (n : ℤ) (s t : ℚ) :
    circuit_evals_kernel n s = circuit_evals_kernel n t ∧
    circuit_evals_kernel n s =
      ⌈(0.75 : ℚ) * (n : ℚ)⌉ * ⌈(0.75 : ℚ) * (n : ℚ)⌉ +
        ⌈(0.75 : ℚ) * (n : ℚ)⌉ * (n - ⌈(0.75 : ℚ) * (n : ℚ)⌉) :=
  ⟨rfl, rfl⟩

/-- C4: for equally-shaped tensors, `hinge_loss(predictions, targets)` is
the elementwise maximum of `0` and `1 - predictions * targets` (the relu
formulation is equivalent to the max formulation), and every entry of the
returned tensor is non-negative. -/
theorem hinge_loss_spec (p t : List ℝ) (h : p.length = t.length) :
    hinge_loss p t = List.zipWith (fun a b => max 0 (1 - a * b)) p t ∧
    ∀ v ∈ hinge_loss p t, 0 ≤ v := by
  constructor
  · rw [hinge_loss_eq_zipWith]
    have hfun : (fun a b : ℝ => relu (1 - a * b)) = fun a b => max 0 (1 - a * b) := by
      funext a b
      exact max_comm _ _
    rw [hfun]
  · intro v hv
    simp only [hinge_loss] at hv
    obtain ⟨u, _, rfl⟩ := List.mem_map.1 hv
    exact le_max_right u 0

/-- Witness for C4 at `predictions = [1]`, `targets = [1]`. -/
theorem hinge_loss_spec_witness :
    hinge_loss [(1 : ℝ)] [1] =
        List.zipWith (fun a b => max 0 (1 - a * b)) [(1 : ℝ)] [1] ∧
      (0 : ℝ) ≤ 0 :=
  ⟨(hinge_loss_spec [1] [1] rfl).1,
   (hinge_loss_spec [1] [1] rfl).2 0 (by norm_num [hinge_loss, relu])⟩

/-- C9: for every input list `X_pred` and any model, parameters and bias,
`quantum_model_predict` returns exactly `X_pred.length` labels, each `1`
or `-1`, and a raw model output that is not strictly greater than `0`
(including exactly `0`) is mapped to the label `-1`. -/
theorem quantum_model_predict_spec {α β : Type} (qm : α → β → ℚ)
    (X_pred : List α) (params : β) (bias : ℚ) :
    (quantum_model_predict qm X_pred params bias).length = X_pred.length ∧
    (∀ l ∈ quantum_model_predict qm X_pred params bias, l = 1 ∨ l = -1) ∧
    (∀ x : α, quantum_model_plus_bias qm x params bias ≤ 0 →
      quantum_model_predict qm [x] params bias = [-1]) := by
  refine ⟨List.length_map _ _, ?_, ?_⟩
  · intro l hl
    obtain ⟨x, _, rfl⟩ := List.mem_map.1 hl
    by_cases hq : quantum_model_plus_bias qm x params bias > 0
    · exact Or.inl (if_pos hq)
    · exact Or.inr (if_neg hq)
  · intro x hx
    have hq : ¬ quantum_model_plus_bias qm x params bias > 0 := not_lt.mpr hx
    simp only [quantum_model_predict, List.map_cons, List.map_nil]
    rw [if_neg hq]

/-- Witness for C9 with the constant zero model on a single input. -/
theorem quantum_model_predict_spec_witness :
    ((-1 : ℤ) = 1 ∨ (-1 : ℤ) = -1) ∧
      quantum_model_predict (fun (_ : ℚ) (_ : ℚ) => (0 : ℚ)) [(0 : ℚ)] 0 0 = [-1] :=
  ⟨(quantum_model_predict_spec (fun _ _ => 0) [(0 : ℚ)] 0 0).2.1 (-1)
      (by simp [quantum_model_predict, quantum_model_plus_bias]),
   (quantum_model_predict_spec (fun _ _ => 0) [(0 : ℚ)] 0 0).2.2 0
      (by norm_num [quantum_model_plus_bias])⟩

end KernelTraining

namespace Scripts

/-- C5 (counterexample): the scripts are not single linear sequences in
the order (a) configure device, (b) define circuit, (c) execute,
(d) post-process, (e) print/plot: the GBS script prints the random
unitary (line 199) before the device is configured (line 211) and prints
probabilities (line 246 onward) before and between the hafnian
post-processing steps, and the kernel script configures a second device
(line 318) after the first pipeline has already executed and printed. -/
theorem linear_step_order_fails :
    ¬ (linearOrder gbs_script ∧ linearOrder kernel_script) := by
  decide

/-- C5 (amended): in each script the core pipeline steps occur in order
on first occurrence — the device is configured before the circuit is
defined, the circuit is defined before it is first executed, and it is
first executed before results are post-processed — while printing and
plotting interleave with those steps instead of strictly following them,
and the kernel script repeats the pipeline for a second device. -/
theorem pipeline_first_occurrence_order :
    (firstIdx .configDevice gbs_script < firstIdx .defineCircuit gbs_script ∧
     firstIdx .defineCircuit gbs_script < firstIdx .execute gbs_script ∧
     firstIdx .execute gbs_script < firstIdx .postProcess gbs_script) ∧
    (firstIdx .configDevice kernel_script < firstIdx .defineCircuit kernel_script ∧
     firstIdx .defineCircuit kernel_script < firstIdx .execute kernel_script ∧
     firstIdx .execute kernel_script < firstIdx .postProcess kernel_script) := by
  decide

/-- C6: after the GBS script creates the `probs` tensor (line 245), no
later statement mutates it: the accesses to `probs` are its single
creation followed by seven reads (lines 246, 263, 331, 338, 345, 354,
364), and no statement writes to it. -/
theorem probs_read_only_after_creation :
    probsAccesses gbs_script =
        ProbsAccess.create :: List.replicate 7 ProbsAccess.read ∧
      (gbs_script.all fun s =>
        decide (s.probsAccess ≠ some ProbsAccess.write)) = true := by
  decide

/-- C7: no statement of either script defines a custom error type, raises
an exception of its own, or catches any exception; hence any exception
raised by the underlying libraries propagates to the caller unchanged. -/
theorem no_custom_error_handling :
    ((gbs_script ++ kernel_script).all fun s =>
      !s.raisesException && !s.catchesException && !s.definesErrorType) = true := by
  decide

/-- C8: no statement of either script creates, writes, or persists a file
or other durable state: every output channel of every statement is the
console or a matplotlib plot. -/
theorem outputs_console_and_plots_only :
    ((gbs_script ++ kernel_script).all fun s =>
      s.outputsTo.all fun c =>
        match c with
        | .console => true
        | .plot => true
        | .fileWrite => false) = true := by
  decide

/-- C10: neither script imports a concurrency module (threads, processes,
asynchronous calls) and no statement uses a concurrency, cancellation, or
shared-mutable-state coordination primitive. -/
theorem no_concurrency_primitives :
    ((gbs_imports ++ kernel_imports).all fun m => !isConcurrencyModule m) = true ∧
    ((gbs_script ++ kernel_script).all fun s => !s.usesConcurrency) = true := by
  decide

end Scripts
